import Mathlib

/-!
# lua-openssl `pkcs7.c`: a shallow embedding

The binding functions of `src/pkcs7.c` are embedded as Lean functions over

* a small model of the Lua C API (argument list, value stack, `return n`
  handing back the top `n` stack slots, `luaL_error` as a raised outcome);
* the OpenSSL primitives the binding calls, taken as the fields of a
  `Toolkit` record: the binding never looks inside them;
* a trace of the calls made on byte streams (`BIO`), in program order.
-/

set_option autoImplicit false

namespace Pkcs7

/-! ## Objects behind the userdata handles -/

/-- Lua strings and OpenSSL buffers. -/
abbrev Bytes := String

abbrev X509 := Nat
abbrev X509_CRL := Nat
abbrev X509_ALGOR := Nat
abbrev PKCS7_SIGNER_INFO := Nat
abbrev EVP_PKEY := Nat
abbrev EVP_CIPHER := Nat
abbrev X509_STORE := Nat

/-- OpenSSL `V_ASN1_OCTET_STRING`. -/
def V_ASN1_OCTET_STRING : Nat := 4

/-- OpenSSL object identifiers of the six PKCS7 content types. -/
def NID_pkcs7_data : Nat := 21
def NID_pkcs7_signed : Nat := 22
def NID_pkcs7_enveloped : Nat := 23
def NID_pkcs7_signedAndEnveloped : Nat := 24
def NID_pkcs7_digest : Nat := 25
def NID_pkcs7_encrypted : Nat := 26

/-- OpenSSL `PKCS7_DETACHED` flag bit. -/
def PKCS7_DETACHED : Nat := 0x40

/-- An `ASN1_TYPE`: a universal tag (`type`) and the value it carries. -/
structure ASN1_TYPE where
  type : Nat
  value : Bytes
  deriving DecidableEq, Repr

/-- The `PKCS7_ENVELOPE` payload; parse never looks inside it. -/
structure PKCS7_ENVELOPE where
  recipientinfo : List Nat
  enc_data : Bytes
  deriving DecidableEq, Repr

/-- The `PKCS7_SIGN_ENVELOPE` payload: `cert` and `crl` are optional sets. -/
structure PKCS7_SIGN_ENVELOPE where
  md_algs : List X509_ALGOR
  cert : Option (List X509)
  crl : Option (List X509_CRL)
  signer_info : List PKCS7_SIGNER_INFO
  enc_data : Bytes
  deriving DecidableEq, Repr

/-- Whether a numeric identifier is one of the six PKCS7 content types. -/
def isPkcs7Nid (nid : Nat) : Bool :=
  decide (NID_pkcs7_data ≤ nid) && decide (nid ≤ NID_pkcs7_encrypted)

mutual
/-- A `PKCS7` container: the content type selects the member of the union `d`;
every member is a pointer, `none` being the NULL pointer (content absent). -/
inductive PKCS7 where
  | data (d : Option Bytes)
  | sign (d : Option PKCS7_SIGNED)
  | enveloped (d : Option PKCS7_ENVELOPE)
  | signed_and_enveloped (d : Option PKCS7_SIGN_ENVELOPE)
  | digest (d : Option PKCS7_DIGEST)
  | encrypted (d : Option Bytes)
  | other (nid : Nat) (notPkcs7 : isPkcs7Nid nid = false) (d : Option ASN1_TYPE)
/-- The `PKCS7_SIGNED` payload (`pkcs7_signed_st`). -/
inductive PKCS7_SIGNED where
  | mk (md_algs : List X509_ALGOR) (cert : Option (List X509))
      (crl : Option (List X509_CRL)) (signer_info : List PKCS7_SIGNER_INFO)
      (contents : PKCS7)
/-- The `PKCS7_DIGEST` payload. -/
inductive PKCS7_DIGEST where
  | mk (contents : PKCS7) (digest : Option Bytes)
end

namespace PKCS7_SIGNED
def md_algs : PKCS7_SIGNED → List X509_ALGOR | mk a _ _ _ _ => a
def cert : PKCS7_SIGNED → Option (List X509) | mk _ c _ _ _ => c
def crl : PKCS7_SIGNED → Option (List X509_CRL) | mk _ _ c _ _ => c
def signer_info : PKCS7_SIGNED → List PKCS7_SIGNER_INFO | mk _ _ _ s _ => s
def contents : PKCS7_SIGNED → PKCS7 | mk _ _ _ _ c => c
end PKCS7_SIGNED

namespace PKCS7_DIGEST
def contents : PKCS7_DIGEST → PKCS7 | mk c _ => c
def digest : PKCS7_DIGEST → Option Bytes | mk _ d => d
end PKCS7_DIGEST

/-- A byte stream: its buffer, its read position and its reference count. -/
structure BIO where
  data : Bytes
  pos : Nat
  references : Nat
  deriving DecidableEq, Repr

/-- The C object a userdata handle points to. -/
inductive Obj where
  | pkcs7 (p : PKCS7)
  | x509 (c : X509)
  | evp_pkey (k : EVP_PKEY)
  | evp_cipher (c : EVP_CIPHER)
  | sk_x509 (sk : Option (List X509))
  | sk_x509_crl (sk : Option (List X509_CRL))
  | sk_x509_algor (sk : List X509_ALGOR)
  | sk_signer_info (sk : List PKCS7_SIGNER_INFO)
  | bio (b : BIO)

/-- A Lua value. A userdata carries the class name it was pushed with. -/
inductive LuaValue where
  | nil
  | boolean (b : Bool)
  | number (n : Int)
  | string (s : Bytes)
  | userdata (cls : String) (o : Obj)
  | table (fields : List (String × LuaValue))

/-- The stream variables of the binding functions. -/
inductive Stream where
  | input
  | ctx
  | out
  | dataout
  | bio_out
  deriving DecidableEq, Repr

/-- A call made on a byte stream, or the call of the verification primitive
with the content and flags it was given. -/
inductive Event where
  | load_bio_object
  | d2i_PKCS7_bio
  | PEM_read_bio_PKCS7
  | SMIME_read_PKCS7
  | BIO_reset
  | BIO_new (s : Stream)
  | BIO_free (s : Stream)
  | PKCS7_verify (indata : Option BIO) (flags : Nat)
  deriving DecidableEq, Repr

/-- How a binding function ends. -/
inductive Outcome where
  | returned (vals : List LuaValue)
  | raised (msg : String)
  | crashed

/-- A finished call: how it ended and the stream calls it made. -/
structure Run where
  outcome : Outcome
  trace : List Event

/-! ## The Lua C API, as far as the binding uses it -/

/-- The argument at stack index `idx` (1-based); `none` is `LUA_TNONE`. -/
def lua_arg (args : List LuaValue) (idx : Nat) : Option LuaValue :=
  if idx = 0 then none else args.get? (idx - 1)

def lua_gettop (args : List LuaValue) : Nat := args.length

/-- A C function that ends with `return n` hands back the top `n` slots. -/
def lua_return (stack : List LuaValue) (n : Nat) : List LuaValue :=
  stack.drop (stack.length - n)

def lua_isnoneornil (args : List LuaValue) (idx : Nat) : Bool :=
  match lua_arg args idx with
  | none => true
  | some .nil => true
  | _ => false

/-- Lua truth: everything but `nil` and `false` (an absent slot included). -/
def lua_toboolean (args : List LuaValue) (idx : Nat) : Bool :=
  match lua_arg args idx with
  | none => false
  | some .nil => false
  | some (.boolean b) => b
  | _ => true

/-- Strings and numbers pass `lua_isstring`; `lua_tolstring` gives the text. -/
def lua_tolstring (args : List LuaValue) (idx : Nat) : Option Bytes :=
  match lua_arg args idx with
  | some (.string s) => some s
  | some (.number n) => some (toString n)
  | _ => none

/-- The integer of a number, or of a string that reads as one; raises otherwise. -/
def luaL_checkinteger (args : List LuaValue) (idx : Nat) : Except String Int :=
  match lua_arg args idx with
  | some (.number n) => .ok n
  | some (.string s) =>
    match s.toInt? with
    | some n => .ok n
    | none => .error "number expected"
  | _ => .error "number expected"

/-- A Lua integer stored into a C `long` (64 bits, two's complement). -/
def toLong (n : Int) : Nat := (n % 18446744073709551616).toNat

/-- The C expression `flags & ~PKCS7_DETACHED` on a 64-bit word. -/
def clearDetached (flags : Nat) : Nat :=
  flags &&& (18446744073709551615 - PKCS7_DETACHED)

/-- The index of the option named at `idx` (of `dflt` when the slot is absent
or nil) in `lst`; raises when the name is not in the list. -/
def luaL_checkoption (args : List LuaValue) (idx : Nat) (dflt : String)
    (lst : List String) : Except String Nat :=
  let name : Except String String :=
    if lua_isnoneornil args idx then .ok dflt
    else match lua_tolstring args idx with
      | some s => .ok s
      | none => .error "string expected"
  match name with
  | .error msg => .error msg
  | .ok s =>
    if s ∈ lst then .ok (lst.indexOf s) else .error "invalid option"

/-- Modelled from the spec: the `CHECK_OBJECT` helper of `openssl.h` is not
among the sources. Per the error design (ArgumentError: the caller supplied
the wrong object) it yields the C object behind a userdata of class `cls`,
read at the C type selected by `proj`, and raises for anything else. -/
def CHECK_OBJECT {α : Type} (args : List LuaValue) (idx : Nat)
    (proj : Obj → Option α) (cls : String) : Except String α :=
  match lua_arg args idx with
  | some (.userdata c o) =>
    if c = cls then
      match proj o with
      | some a => .ok a
      | none => .error (cls ++ " expected")
    else .error (cls ++ " expected")
  | _ => .error (cls ++ " expected")

/-- Modelled from the spec: the `PUSH_OBJECT` helper of `openssl.h` is not
among the sources; it wraps a C object into a userdata of the named class. -/
def PUSH_OBJECT (o : Obj) (cls : String) : LuaValue := .userdata cls o

namespace Obj
def toPKCS7 : Obj → Option PKCS7 | pkcs7 p => some p | _ => none
def toX509 : Obj → Option X509 | x509 c => some c | _ => none
def toPKEY : Obj → Option EVP_PKEY | evp_pkey k => some k | _ => none
def toCIPHER : Obj → Option EVP_CIPHER | evp_cipher c => some c | _ => none
def toStackX509 : Obj → Option (Option (List X509)) | sk_x509 sk => some sk | _ => none
def toBio : Obj → Option BIO | bio b => some b | _ => none
end Obj

/-! ## The toolkit -/

/-- The OpenSSL primitives (and the repository's `setup_verify`, which lives
outside `pkcs7.c`) the binding calls. A decoder maps a stream to what it
decoded and the stream it leaves behind; an encoder gives its success flag
and the bytes it wrote onto a fresh memory stream. -/
structure Toolkit where
  d2i_PKCS7_bio : BIO → Option PKCS7 × BIO
  PEM_read_bio_PKCS7 : BIO → Option PKCS7 × BIO
  SMIME_read_PKCS7 : BIO → (Option PKCS7 × Option BIO) × BIO
  BIO_reset : BIO → BIO
  i2d_PKCS7_bio : PKCS7 → Bool × Bytes
  PEM_write_bio_PKCS7 : PKCS7 → Bool × Bytes
  PKCS7_sign : X509 → EVP_PKEY → Option (List X509) → BIO → Nat → Option PKCS7
  setup_verify : Option (List X509) → Option X509_STORE
  PKCS7_verify : PKCS7 → Option (List X509) → X509_STORE → Option BIO →
    Option BIO → Nat → Bool
  PKCS7_get0_signers : PKCS7 → Option (List X509) → Nat → Option (List X509)
  EVP_get_cipherbyname : String → Option EVP_CIPHER
  PKCS7_encrypt : Option (List X509) → BIO → EVP_CIPHER → Nat → Option PKCS7
  PKCS7_decrypt : PKCS7 → Option EVP_PKEY → X509 → Nat → Bool × Bytes
  OBJ_nid2ln : Nat → Option String

/-- OpenSSL `BIO_new_mem_buf`: a fresh stream over the given bytes, owned by
the caller of this function (one reference). -/
def BIO_new_mem_buf (buf : Bytes) : BIO := { data := buf, pos := 0, references := 1 }

/-! ## `pkcs7.c` -/

def load_bio_object (args : List LuaValue) (idx : Nat) : Except String BIO :=
  match lua_tolstring args idx with
  | some ctx => .ok (BIO_new_mem_buf ctx)
  | none =>
    match lua_arg args idx with
    | some (.userdata cls (.bio bio)) =>
      if cls = "openssl.bio" then .ok { bio with references := bio.references + 1 }
      else .error "only support string or openssl.bio"
    | _ => .error "only support string or openssl.bio"

def FORMAT_AUTO : Nat := 0
def FORMAT_DER : Nat := 1
def FORMAT_PEM : Nat := 2
def FORMAT_SMIME : Nat := 3
def FORMAT_NUM : Nat := 4

def format : List String := ["auto", "der", "pem", "smime"]

/-- The local variables of `openssl_pkcs7_read` and the trace so far. -/
structure ReadState where
  bio : BIO
  p7 : Option PKCS7
  ctx : Option BIO
  trace : List Event

def openssl_pkcs7_read (tk : Toolkit) (args : List LuaValue) : Run :=
  match load_bio_object args 1 with
  | .error msg => ⟨.raised msg, []⟩
  | .ok bio =>
  match luaL_checkoption args 2 "auto" format with
  | .error msg => ⟨.raised msg, [.load_bio_object]⟩
  | .ok fmt =>
    let s0 : ReadState := ⟨bio, none, none, [.load_bio_object]⟩
    let s1 : ReadState :=
      if fmt = FORMAT_AUTO ∨ fmt = FORMAT_DER then
        let r := tk.d2i_PKCS7_bio s0.bio
        { s0 with p7 := r.1, bio := tk.BIO_reset r.2,
                  trace := s0.trace ++ [.d2i_PKCS7_bio, .BIO_reset] }
      else s0
    let s2 : ReadState :=
      if (fmt = FORMAT_AUTO ∧ s1.p7.isNone) ∨ fmt = FORMAT_PEM then
        let r := tk.PEM_read_bio_PKCS7 s1.bio
        { s1 with p7 := r.1, bio := tk.BIO_reset r.2,
                  trace := s1.trace ++ [.PEM_read_bio_PKCS7, .BIO_reset] }
      else s1
    let s3 : ReadState :=
      if (fmt = FORMAT_AUTO ∧ s2.p7.isNone) ∨ fmt = FORMAT_SMIME then
        let r := tk.SMIME_read_PKCS7 s2.bio
        { s2 with p7 := r.1.1, ctx := r.1.2, bio := r.2,
                  trace := s2.trace ++ [.SMIME_read_PKCS7] }
      else s2
    let trace := s3.trace ++ [.BIO_free .input]
    match s3.p7 with
    | some p7 =>
      match s3.ctx with
      | some ctx =>
        ⟨.returned (lua_return
            (args ++ [PUSH_OBJECT (.pkcs7 p7) "openssl.pkcs7", .string ctx.data]) 2),
          trace ++ [.BIO_free .ctx]⟩
      | none =>
        ⟨.returned (lua_return (args ++ [PUSH_OBJECT (.pkcs7 p7) "openssl.pkcs7"]) 1), trace⟩
    | none => ⟨.returned (lua_return (args ++ [.nil]) 1), trace⟩

def openssl_pkcs7_export (tk : Toolkit) (args : List LuaValue) : Run :=
  match CHECK_OBJECT args 1 Obj.toPKCS7 "openssl.pkcs7" with
  | .error msg => ⟨.raised msg, []⟩
  | .ok p7 =>
    let top := lua_gettop args
    let pem : Bool := if top > 1 then lua_toboolean args 2 else true
    let trace : List Event := [.BIO_new .bio_out, .BIO_free .bio_out]
    if pem then
      let r := tk.PEM_write_bio_PKCS7 p7
      if r.1 then ⟨.returned (lua_return (args ++ [.string r.2]) 1), trace⟩
      else ⟨.returned (lua_return (args ++ [.nil]) 1), trace⟩
    else
      let r := tk.i2d_PKCS7_bio p7
      if r.1 then ⟨.returned (lua_return (args ++ [.string r.2]) 1), trace⟩
      else ⟨.returned (lua_return (args ++ [.nil]) 1), trace⟩

/-- The C conversion `(int)` of a Lua integer (32 bits, two's complement). -/
def toCInt (n : Int) : Int := (n + 2147483648) % 4294967296 - 2147483648

/-- The optional integer argument `if (top > k) flags = check(L, idx)`. -/
def optFlags (args : List LuaValue) (k idx : Nat) (conv : Int → Nat) : Except String Nat :=
  if lua_gettop args > k then
    match luaL_checkinteger args idx with
    | .ok n => .ok (conv n)
    | .error msg => .error msg
  else .ok 0

/-- The optional certificate stack `if (top > k) sk = CHECK_OBJECT(idx, ...)`,
NULL when the argument is not given. -/
def optStack (args : List LuaValue) (k idx : Nat) : Except String (Option (List X509)) :=
  if lua_gettop args > k then CHECK_OBJECT args idx Obj.toStackX509 "openssl.stack_of_x509"
  else .ok none

def openssl_pkcs7_sign (tk : Toolkit) (args : List LuaValue) : Run :=
  match load_bio_object args 1 with
  | .error msg => ⟨.raised msg, []⟩
  | .ok inp =>
  match CHECK_OBJECT args 2 Obj.toX509 "openssl.x509" with
  | .error msg => ⟨.raised msg, [.load_bio_object]⟩
  | .ok cert =>
  match CHECK_OBJECT args 3 Obj.toPKEY "openssl.evp_pkey" with
  | .error msg => ⟨.raised msg, [.load_bio_object]⟩
  | .ok privkey =>
  match optFlags args 3 4 (fun n => toLong (toCInt n)) with
  | .error msg => ⟨.raised msg, [.load_bio_object]⟩
  | .ok flags =>
  match optStack args 4 5 with
  | .error msg => ⟨.raised msg, [.load_bio_object]⟩
  | .ok others =>
    match tk.PKCS7_sign cert privkey others inp flags with
    | none =>
      -- line 107: `luaL_error` does not return, `BIO_free(in)` is not reached
      ⟨.raised "error creating PKCS7 structure!", [.load_bio_object]⟩
    | some p7 =>
      ⟨.returned (lua_return (args ++ [PUSH_OBJECT (.pkcs7 p7) "openssl.pkcs7"]) 1),
        [.load_bio_object, .BIO_free .input]⟩

/-- The optional output stream `if (top > 5) dataout = CHECK_OBJECT(6, BIO, ...)`. -/
def optBio (args : List LuaValue) (k idx : Nat) : Except String (Option BIO) :=
  if lua_gettop args > k then
    match CHECK_OBJECT args idx Obj.toBio "openssl.bio" with
    | .ok b => .ok (some b)
    | .error msg => .error msg
  else .ok none

def openssl_pkcs7_verify (tk : Toolkit) (args : List LuaValue) : Run :=
  match CHECK_OBJECT args 1 Obj.toPKCS7 "openssl.pkcs7" with
  | .error msg => ⟨.raised msg, []⟩
  | .ok p7 =>
  match optFlags args 1 2 toLong with
  | .error msg => ⟨.raised msg, []⟩
  | .ok flags0 =>
  match optStack args 2 3 with
  | .error msg => ⟨.raised msg, []⟩
  | .ok _signers =>
  match optStack args 3 4 with
  | .error msg => ⟨.raised msg, []⟩
  | .ok cainfo =>
  match optStack args 4 5 with
  | .error msg => ⟨.raised msg, []⟩
  | .ok others =>
  match optBio args 5 6 with
  | .error msg => ⟨.raised msg, []⟩
  | .ok dataout =>
    let flags := clearDetached flags0
    match tk.setup_verify cainfo with
    | none => ⟨.raised "can't setup veirfy cainfo", []⟩
    | some store =>
      let stack : List LuaValue :=
        if tk.PKCS7_verify p7 others store none dataout flags then
          let signers1 := tk.PKCS7_get0_signers p7 none flags
          args ++ [.boolean true, PUSH_OBJECT (.sk_x509 signers1) "openssl.sk_x509"]
        else
          args ++ [.boolean false]
      -- `ret` holds 2 or 1 here, the function ends with `return 1`
      ⟨.returned (lua_return stack 1),
        Event.PKCS7_verify none flags ::
          (if dataout.isSome then [Event.BIO_free .dataout] else [])⟩

/-- The cipher of `openssl_pkcs7_encrypt`: the fourth argument when given,
else the one named "DES-EDE-CBC" (the earlier `EVP_get_cipherbynid` value is
overwritten on both branches). -/
def encryptCipher (tk : Toolkit) (args : List LuaValue) : Except String (Option EVP_CIPHER) :=
  if lua_gettop args > 3 then
    match CHECK_OBJECT args 4 Obj.toCIPHER "openssl.evp_cipher" with
    | .ok c => .ok (some c)
    | .error msg => .error msg
  else .ok (tk.EVP_get_cipherbyname "DES-EDE-CBC")

def openssl_pkcs7_encrypt (tk : Toolkit) (args : List LuaValue) : Run :=
  match load_bio_object args 1 with
  | .error msg => ⟨.raised msg, []⟩
  | .ok infile =>
  match CHECK_OBJECT args 2 Obj.toStackX509 "openssl.stack_of_x509" with
  | .error msg => ⟨.raised msg, [.load_bio_object]⟩
  | .ok recipcerts =>
  match optFlags args 2 3 toLong with
  | .error msg => ⟨.raised msg, [.load_bio_object]⟩
  | .ok flags =>
  match encryptCipher tk args with
  | .error msg => ⟨.raised msg, [.load_bio_object]⟩
  | .ok none => ⟨.raised "Failed to get cipher", [.load_bio_object]⟩
  | .ok (some cipher) =>
    match tk.PKCS7_encrypt recipcerts infile cipher flags with
    | none =>
      ⟨.returned (lua_return (args ++ [.nil]) 1), [.load_bio_object, .BIO_reset]⟩
    | some p7 =>
      ⟨.returned (lua_return (args ++ [PUSH_OBJECT (.pkcs7 p7) "openssl.pkcs7"]) 1),
        [.load_bio_object, .BIO_reset]⟩

/-- The optional key `lua_isnoneornil(L,3) ? NULL : CHECK_OBJECT(3, ...)`. -/
def optKey (args : List LuaValue) (idx : Nat) : Except String (Option EVP_PKEY) :=
  if lua_isnoneornil args idx then .ok none
  else
    match CHECK_OBJECT args idx Obj.toPKEY "openssl.evp_pkey" with
    | .ok k => .ok (some k)
    | .error msg => .error msg

def openssl_pkcs7_decrypt (tk : Toolkit) (args : List LuaValue) : Run :=
  match CHECK_OBJECT args 1 Obj.toPKCS7 "openssl.pkcs7" with
  | .error msg => ⟨.raised msg, []⟩
  | .ok p7 =>
  match CHECK_OBJECT args 2 Obj.toX509 "openssl.x509" with
  | .error msg => ⟨.raised msg, []⟩
  | .ok cert =>
  match optKey args 3 with
  | .error msg => ⟨.raised msg, []⟩
  | .ok key =>
    let r := tk.PKCS7_decrypt p7 key cert PKCS7_DETACHED
    if r.1 then
      ⟨.returned (lua_return (args ++ [.string r.2]) 1), [.BIO_new .out, .BIO_free .out]⟩
    else
      ⟨.returned (lua_return (args ++ [.nil]) 1), [.BIO_new .out, .BIO_free .out]⟩

/-! ### Structural parse -/

/-- A Lua table with string keys, as its list of fields. -/
abbrev Fields := List (String × LuaValue)

/-- Whether a table has a (non-nil) value under the key `k`. -/
def hasKey (t : Fields) (k : String) : Prop := k ∈ t.map Prod.fst

instance (t : Fields) (k : String) : Decidable (hasKey t k) :=
  inferInstanceAs (Decidable (k ∈ t.map Prod.fst))

/-- Lua `lua_setfield`: storing nil removes the key, anything else replaces it. -/
def lua_setfield (t : Fields) (k : String) (v : LuaValue) : Fields :=
  match v with
  | .nil => t.filter (fun e => e.1 != k)
  | v => t.filter (fun e => e.1 != k) ++ [(k, v)]

/-- Lua `lua_pushstring`: a NULL C string pushes nil. -/
def lua_pushstring (s : Option String) : LuaValue :=
  match s with
  | some s => .string s
  | none => .nil

/-- OpenSSL `OBJ_obj2nid(p7->type)`. -/
def OBJ_obj2nid : PKCS7 → Nat
  | .data _ => NID_pkcs7_data
  | .sign _ => NID_pkcs7_signed
  | .enveloped _ => NID_pkcs7_enveloped
  | .signed_and_enveloped _ => NID_pkcs7_signedAndEnveloped
  | .digest _ => NID_pkcs7_digest
  | .encrypted _ => NID_pkcs7_encrypted
  | .other nid _ _ => nid

namespace PKCS7
/-- The union member `d.data`. -/
def d_data : PKCS7 → Option Bytes | data d => d | _ => none
/-- The union member `d.sign`. -/
def d_sign : PKCS7 → Option PKCS7_SIGNED | sign d => d | _ => none
/-- The union member `d.signed_and_enveloped`. -/
def d_signed_and_enveloped : PKCS7 → Option PKCS7_SIGN_ENVELOPE
  | signed_and_enveloped d => d
  | _ => none
/-- The union member `d.digest`. -/
def d_digest : PKCS7 → Option PKCS7_DIGEST | digest d => d | _ => none
/-- The union member `d.other`. -/
def d_other : PKCS7 → Option ASN1_TYPE | other _ _ d => d | _ => none
/-- Whether the union pointer `d.ptr` is NULL: the container has no payload. -/
def d_ptr_null : PKCS7 → Bool
  | data d => d.isNone
  | sign d => d.isNone
  | enveloped d => d.isNone
  | signed_and_enveloped d => d.isNone
  | digest d => d.isNone
  | encrypted d => d.isNone
  | other _ _ d => d.isNone
end PKCS7

/-- OpenSSL `PKCS7_type_is_data`. -/
def PKCS7_type_is_data (p7 : PKCS7) : Bool := OBJ_obj2nid p7 == NID_pkcs7_data

/-- OpenSSL `PKCS7_is_detached` (`PKCS7_ctrl`, `PKCS7_OP_GET_DETACHED_SIGNATURE`):
a signed container is detached when it has no payload or its inner contents
have none; the operation yields 0 for every other type. -/
def PKCS7_is_detached (p7 : PKCS7) : Bool :=
  if OBJ_obj2nid p7 = NID_pkcs7_signed then
    match p7.d_sign with
    | none => true
    | some sign => sign.contents.d_ptr_null
  else false

def PKCS7_type_is_other (p7 : PKCS7) : Bool :=
  let nid := OBJ_obj2nid p7
  if nid = NID_pkcs7_data ∨ nid = NID_pkcs7_signed ∨ nid = NID_pkcs7_enveloped ∨
      nid = NID_pkcs7_signedAndEnveloped ∨ nid = NID_pkcs7_digest ∨
      nid = NID_pkcs7_encrypted then false
  else true

/-- The octet string of a container, `none` being the NULL result. -/
def PKCS7_get_octet_string (p7 : PKCS7) : Option Bytes :=
  if PKCS7_type_is_data p7 then p7.d_data
  else
    match PKCS7_type_is_other p7, p7.d_other with
    | true, some other =>
      if other.type = V_ASN1_OCTET_STRING then some other.value else none
    | _, _ => none

/-- The table under construction and the `certs` and `crls` locals. -/
structure ParseState where
  t : Fields
  certs : Option (List X509)
  crls : Option (List X509_CRL)

/-- The `switch (i)` of `openssl_pkcs7_parse`; `none` when it dereferences a
NULL pointer. -/
def parse_switch (p7 : PKCS7) (i : Nat) (t : Fields) : Option ParseState :=
  if i = NID_pkcs7_signed then
    match p7.d_sign with
    | none => none
    | some sign =>
      let c := sign.contents
      let t := lua_setfield t "md_algs"
        (PUSH_OBJECT (.sk_x509_algor sign.md_algs) "openssl.stack_of_x509_algor")
      let t := lua_setfield t "signer_info"
        (PUSH_OBJECT (.sk_signer_info sign.signer_info) "openssl.stack_of_pkcs7_signer_info")
      let t := lua_setfield t "detached" (.boolean (PKCS7_is_detached p7))
      -- `if (c)`: the inner contents of a signed payload are never NULL
      let t := lua_setfield t "contents" (PUSH_OBJECT (.pkcs7 c) "openssl.pkcs7")
      if !PKCS7_is_detached p7 then
        match PKCS7_get_octet_string sign.contents with
        | none => none
        | some os => some ⟨lua_setfield t "content" (.string os), sign.cert, sign.crl⟩
      else some ⟨t, sign.cert, sign.crl⟩
  else if i = NID_pkcs7_signedAndEnveloped then
    match p7.d_signed_and_enveloped with
    | none => none
    | some se => some ⟨t, se.cert, se.crl⟩
  else if i = NID_pkcs7_enveloped then some ⟨t, none, none⟩
  else if i = NID_pkcs7_digest then
    match p7.d_digest with
    | none => none
    | some d =>
      let t := lua_setfield t "type" (.string "digest")
      match d.digest with
      | some data => some ⟨lua_setfield t "digest" (.string data), none, none⟩
      | none => some ⟨t, none, none⟩
  else if i = NID_pkcs7_data then
    match p7.d_data with
    | none => none
    | some data =>
      let t := lua_setfield t "type" (.string "data")
      some ⟨lua_setfield t "data" (.string data), none, none⟩
  else some ⟨t, none, none⟩

def openssl_pkcs7_parse (tk : Toolkit) (args : List LuaValue) : Run :=
  match CHECK_OBJECT args 1 Obj.toPKCS7 "openssl.pkcs7" with
  | .error msg => ⟨.raised msg, []⟩
  | .ok p7 =>
    let i := OBJ_obj2nid p7
    let t := lua_setfield [] "type" (lua_pushstring (tk.OBJ_nid2ln i))
    match parse_switch p7 i t with
    | none => ⟨.crashed, []⟩
    | some st =>
      let t :=
        match st.certs with
        | some certs =>
          lua_setfield st.t "certs" (PUSH_OBJECT (.sk_x509 (some certs)) "openssl.stack_of_x509")
        | none => st.t
      let t :=
        match st.crls with
        | some crls =>
          lua_setfield t "crls" (PUSH_OBJECT (.sk_x509_crl (some crls)) "openssl.stack_of_crl")
        | none => t
      ⟨.returned (lua_return (args ++ [.table t]) 1), []⟩

/-! ### Registration -/

/-- The C functions of `pkcs7.c` (and `auxiliar_tostring`). -/
inductive CFunction where
  | openssl_pkcs7_read
  | openssl_pkcs7_sign
  | openssl_pkcs7_verify
  | openssl_pkcs7_encrypt
  | openssl_pkcs7_decrypt
  | openssl_pkcs7_gc
  | openssl_pkcs7_export
  | openssl_pkcs7_parse
  | auxiliar_tostring
  deriving DecidableEq, Repr

/-- What a field of the module table holds. -/
inductive ModuleValue where
  | cfunction (f : CFunction)
  | string (s : String)
  | module
  deriving DecidableEq, Repr

abbrev ModuleTable := List (String × ModuleValue)

def pkcs7_funcs : List (String × CFunction) :=
  [("parse", .openssl_pkcs7_parse),
   ("export", .openssl_pkcs7_export),
   ("decrypt", .openssl_pkcs7_decrypt),
   ("verify", .openssl_pkcs7_verify),
   ("__gc", .openssl_pkcs7_gc),
   ("__tostring", .auxiliar_tostring)]

def R : List (String × CFunction) :=
  [("read", .openssl_pkcs7_read),
   ("sign", .openssl_pkcs7_sign),
   ("sign", .openssl_pkcs7_verify),
   ("encrypt", .openssl_pkcs7_encrypt),
   ("decrypt", .openssl_pkcs7_decrypt)]

/-- Lua `lua_settable` with a string key and a non-nil value. -/
def ModuleTable.set (t : ModuleTable) (k : String) (v : ModuleValue) : ModuleTable :=
  t.filter (fun e => e.1 != k) ++ [(k, v)]

/-- Lua `lua_gettable` with a string key, without metamethods. -/
def ModuleTable.get (t : ModuleTable) (k : String) : Option ModuleValue :=
  (t.find? (fun e => e.1 == k)).map Prod.snd

/-- Lua `luaL_register`: every entry of `l`, in order, is stored under its name. -/
def luaL_register (t : ModuleTable) (l : List (String × CFunction)) : ModuleTable :=
  l.foldl (fun t e => t.set e.1 (.cfunction e.2)) t

/-- The module table `luaopen_pkcs7` leaves on the stack; `t0` is the table
`luaL_register` finds under the module name and `version` the text `MYVERSION`. -/
def luaopen_pkcs7 (t0 : ModuleTable) (version : String) : ModuleTable :=
  let m := luaL_register t0 R
  let m := m.set "version" (.string version)
  m.set "__index" .module

/-! ## Format dispatch, as the specification words it -/

/-- The three decoders of the codec. -/
inductive Decoder where
  | der
  | pem
  | smime
  deriving DecidableEq, Repr

/-- One decoder applied to a stream: the container (with, for S/MIME, the
recovered content) if it recognises the input, and the stream it leaves. -/
def Decoder.run (tk : Toolkit) : Decoder → BIO → (Option PKCS7 × Option BIO) × BIO
  | .der, b => (((tk.d2i_PKCS7_bio b).1, none), (tk.d2i_PKCS7_bio b).2)
  | .pem, b => (((tk.PEM_read_bio_PKCS7 b).1, none), (tk.PEM_read_bio_PKCS7 b).2)
  | .smime, b => tk.SMIME_read_PKCS7 b

/-- The decoders a format name stands for, in the order the specification
gives: auto is DER, then PEM, then S/MIME. -/
def decodersOf (fmt : String) : List Decoder :=
  if fmt = "auto" then [.der, .pem, .smime]
  else if fmt = "der" then [.der]
  else if fmt = "pem" then [.pem]
  else if fmt = "smime" then [.smime]
  else []

/-- Try the decoders in order, rewinding the stream between attempts: the
result of the first that succeeds, and the decoders consulted up to it. -/
def firstDecoded (tk : Toolkit) :
    List Decoder → BIO → Option (PKCS7 × Option BIO) × List Decoder
  | [], _ => (none, [])
  | d :: ds, b =>
    match (d.run tk b).1.1 with
    | some p7 => (some (p7, (d.run tk b).1.2), [d])
    | none =>
      let r := firstDecoded tk ds (tk.BIO_reset (d.run tk b).2)
      (r.1, d :: r.2)

/-- The decoder calls of a trace, in order. -/
def consulted : List Event → List Decoder
  | [] => []
  | .d2i_PKCS7_bio :: es => .der :: consulted es
  | .PEM_read_bio_PKCS7 :: es => .pem :: consulted es
  | .SMIME_read_PKCS7 :: es => .smime :: consulted es
  | _ :: es => consulted es

/-- What `read` hands back for a decoding result. -/
def readValues : Option (PKCS7 × Option BIO) → List LuaValue
  | some (p7, some ctx) => [.userdata "openssl.pkcs7" (.pkcs7 p7), .string ctx.data]
  | some (p7, none) => [.userdata "openssl.pkcs7" (.pkcs7 p7)]
  | none => [.nil]

/-- How often a trace releases the input stream. -/
def releases (trace : List Event) : Nat := trace.count (Event.BIO_free .input)

/-- How often a trace acquires the input stream. -/
def acquisitions (trace : List Event) : Nat := trace.count Event.load_bio_object

/-- The embedded certificate list of a container, as the specification
words it: SignedData and SignedAndEnvelopedData carry one, which may be absent. -/
def embeddedCerts : PKCS7 → Option (List X509)
  | .sign (some sign) => sign.cert
  | .signed_and_enveloped (some se) => se.cert
  | _ => none

/-- The embedded revocation list of a container, likewise. -/
def embeddedCrls : PKCS7 → Option (List X509_CRL)
  | .sign (some sign) => sign.crl
  | .signed_and_enveloped (some se) => se.crl
  | _ => none

/-- The containers on which `openssl_pkcs7_parse` dereferences a NULL pointer:
a data, signed, signed-and-enveloped or digest container without payload, and
an attached signed container whose inner content has no octet string. -/
def parseNullDeref : PKCS7 → Bool
  | .data none => true
  | .sign none => true
  | .signed_and_enveloped none => true
  | .digest none => true
  | .sign (some sign) =>
    !sign.contents.d_ptr_null && (PKCS7_get_octet_string sign.contents).isNone
  | _ => false

/-- A container without payload, read off its shape. -/
def contentAbsent : PKCS7 → Bool
  | .data none => true
  | .sign none => true
  | .enveloped none => true
  | .signed_and_enveloped none => true
  | .digest none => true
  | .encrypted none => true
  | .other _ _ none => true
  | _ => false

/-- Inner contents that hold an octet string, read off their shape: plain
data with a payload, or another type whose value is an octet string. -/
def holdsOctetString : PKCS7 → Bool
  | .data (some _) => true
  | .other _ _ (some value) => decide (value.type = V_ASN1_OCTET_STRING)
  | _ => false

/-- The containers the structural parse is written for, read off their shape:
a data, signed, signed-and-enveloped or digest container has its payload, and
the inner contents of a signed container are detached or hold an octet
string. Enveloped, encrypted and other containers are always in. -/
def parseable : PKCS7 → Bool
  | .data d => d.isSome
  | .sign none => false
  | .sign (some (.mk _ _ _ _ contents)) => contentAbsent contents || holdsOctetString contents
  | .signed_and_enveloped d => d.isSome
  | .digest d => d.isSome
  | .enveloped _ => true
  | .encrypted _ => true
  | .other _ _ _ => true

/-! ## Toolkits for the examples -/

/-- A toolkit in which every primitive fails and no stream is moved. -/
def failingToolkit : Toolkit where
  d2i_PKCS7_bio b := (none, b)
  PEM_read_bio_PKCS7 b := (none, b)
  SMIME_read_PKCS7 b := ((none, none), b)
  BIO_reset b := { b with pos := 0 }
  i2d_PKCS7_bio _ := (false, "")
  PEM_write_bio_PKCS7 _ := (false, "")
  PKCS7_sign _ _ _ _ _ := none
  setup_verify _ := some 0
  PKCS7_verify _ _ _ _ _ _ := false
  PKCS7_get0_signers _ _ _ := none
  EVP_get_cipherbyname _ := some 0
  PKCS7_encrypt _ _ _ _ := none
  PKCS7_decrypt _ _ _ _ := (false, "")
  OBJ_nid2ln _ := none

/-- A toolkit whose codec knows plain data containers only: DER is the
payload after a one-letter header `D`, PEM is the payload after a one-letter
header `P`, and every stream is read to its end. -/
def dataToolkit : Toolkit :=
  { failingToolkit with
    d2i_PKCS7_bio := fun b =>
      match b.data.data with
      | 'D' :: cs => (some (.data (some ⟨cs⟩)), { b with pos := b.data.length })
      | _ => (none, { b with pos := b.data.length })
    PEM_read_bio_PKCS7 := fun b =>
      match b.data.data with
      | 'P' :: cs => (some (.data (some ⟨cs⟩)), { b with pos := b.data.length })
      | _ => (none, { b with pos := b.data.length })
    i2d_PKCS7_bio := fun p7 =>
      match p7 with
      | .data (some s) => (true, ⟨'D' :: s.data⟩)
      | _ => (false, "")
    PKCS7_decrypt := fun _ key _ _ =>
      match key with
      | some 1 => (true, "plain")
      | _ => (false, "") }

/-- A toolkit whose primitives all succeed. -/
def acceptingToolkit : Toolkit :=
  { failingToolkit with
    PKCS7_sign := fun _ _ _ inp _ =>
      some (.sign (some (.mk [] (some []) none [] (.data (some inp.data)))))
    PKCS7_verify := fun _ _ _ _ _ _ => true
    PKCS7_get0_signers := fun _ _ _ => some [7]
    PKCS7_encrypt := fun _ inp _ _ => some (.enveloped (some ⟨[1], inp.data⟩)) }

/-- A detached signed container: its inner contents carry no payload. -/
def detachedContainer : PKCS7 := .sign (some (.mk [1] (some [7]) none [1] (.data none)))

/-- A toolkit whose verification primitive accepts the detached container
exactly when it is handed the signed content `m`. -/
def detachedToolkit : Toolkit :=
  { failingToolkit with
    PKCS7_verify := fun _ _ _ indata _ _ =>
      match indata with
      | some b => decide (b.data = "m")
      | none => false }

/-- A signed container with its content attached. -/
def attachedContainer : PKCS7 := .sign (some (.mk [1] (some [7]) none [1] (.data (some "m"))))

/-- A signed container whose attached inner content is itself signed data. -/
def nestedSignedContainer : PKCS7 := .sign (some (.mk [1] none none [1] attachedContainer))

/-- A signed container whose attached inner content is of another type and
carries a SEQUENCE (tag 16), not an octet string. -/
def otherSequenceContainer : PKCS7 :=
  .sign (some (.mk [1] none none [1] (.other 0 rfl (some ⟨16, "x"⟩))))

/-- A signed container with a certificate list and a revocation list, both
present, whose attached inner content is itself signed data. -/
def listsNestedContainer : PKCS7 :=
  .sign (some (.mk [1] (some [7]) (some [9]) [1] attachedContainer))

/-- A signed container with its content attached as plain data, a certificate
list that is present and a revocation list that is absent. -/
def listsAttachedContainer : PKCS7 :=
  .sign (some (.mk [1] (some [7]) none [1] (.data (some "m"))))

/-- The arguments of a well-typed `sign` call. -/
def signArgs : List LuaValue :=
  [.string "m", .userdata "openssl.x509" (.x509 7), .userdata "openssl.evp_pkey" (.evp_pkey 1)]

/-- The arguments of a well-typed `encrypt` call. -/
def encryptArgs : List LuaValue :=
  [.string "m", .userdata "openssl.stack_of_x509" (.sk_x509 (some [7]))]

/-- The arguments of a `verify` call that supplies the signed content `m` in
the only stream argument the operation has, the sixth. -/
def detachedVerifyArgs : List LuaValue :=
  [.userdata "openssl.pkcs7" (.pkcs7 detachedContainer), .number 0,
   .userdata "openssl.stack_of_x509" (.sk_x509 (some [])),
   .userdata "openssl.stack_of_x509" (.sk_x509 (some [])),
   .userdata "openssl.stack_of_x509" (.sk_x509 (some [])),
   .userdata "openssl.bio" (.bio (BIO_new_mem_buf "m"))]

/-! ## Lemmas on the Lua model -/

theorem lua_return_pushed (args pushed : List LuaValue) :
    lua_return (args ++ pushed) pushed.length = pushed := by
  unfold lua_return
  have h : (args ++ pushed).length - pushed.length = args.length := by simp
  rw [h, List.drop_left]

theorem lua_return_one (args : List LuaValue) (v : LuaValue) :
    lua_return (args ++ [v]) 1 = [v] := lua_return_pushed args [v]

theorem lua_return_two (args : List LuaValue) (v w : LuaValue) :
    lua_return (args ++ [v, w]) 2 = [v, w] := lua_return_pushed args [v, w]

theorem luaL_checkoption_string (args : List LuaValue) (idx : Nat) (dflt s : String)
    (lst : List String) (harg : lua_arg args idx = some (.string s)) (hs : s ∈ lst) :
    luaL_checkoption args idx dflt lst = .ok (lst.indexOf s) := by
  simp [luaL_checkoption, lua_isnoneornil, lua_tolstring, harg, hs]

theorem luaL_checkoption_default (args : List LuaValue) (idx : Nat) (dflt : String)
    (lst : List String) (harg : lua_isnoneornil args idx = true) (hs : dflt ∈ lst) :
    luaL_checkoption args idx dflt lst = .ok (lst.indexOf dflt) := by
  simp [luaL_checkoption, harg, hs]

/-- The format index `read` works with when the format is named `fmt`. -/
theorem read_format_index (args : List LuaValue) (fmt : String) (hfmt : fmt ∈ format)
    (harg : lua_arg args 2 = some (.string fmt) ∨
      (fmt = "auto" ∧ lua_isnoneornil args 2 = true)) :
    luaL_checkoption args 2 "auto" format = .ok (format.indexOf fmt) := by
  rcases harg with h | ⟨h1, h2⟩
  · exact luaL_checkoption_string args 2 "auto" fmt format h hfmt
  · subst h1
    exact luaL_checkoption_default args 2 "auto" format h2 hfmt

/-- The code of `read` against the dispatch of the specification. -/
theorem read_refines_firstDecoded (tk : Toolkit) (args : List LuaValue) (bio : BIO)
    (fmt : String) (hbio : load_bio_object args 1 = .ok bio) (hfmt : fmt ∈ format)
    (harg : lua_arg args 2 = some (.string fmt) ∨
      (fmt = "auto" ∧ lua_isnoneornil args 2 = true)) :
    consulted (openssl_pkcs7_read tk args).trace = (firstDecoded tk (decodersOf fmt) bio).2 ∧
    (openssl_pkcs7_read tk args).outcome =
      .returned (readValues (firstDecoded tk (decodersOf fmt) bio).1) := by
  have hidx := read_format_index args fmt hfmt harg
  simp only [format, List.mem_cons, List.mem_singleton, List.not_mem_nil, or_false] at hfmt
  rcases hfmt with h | h | h | h <;> subst h
  · have hi : format.indexOf "auto" = 0 := by decide
    rw [hi] at hidx
    simp only [openssl_pkcs7_read, hbio, hidx]
    cases hd : (tk.d2i_PKCS7_bio bio).1 with
    | some p =>
      simp [decodersOf, firstDecoded, Decoder.run, hd, FORMAT_AUTO, FORMAT_DER, FORMAT_PEM,
        FORMAT_SMIME, consulted, readValues, lua_return_one, PUSH_OBJECT]
    | none =>
      cases hp : (tk.PEM_read_bio_PKCS7 (tk.BIO_reset (tk.d2i_PKCS7_bio bio).2)).1 with
      | some p =>
        simp [decodersOf, firstDecoded, Decoder.run, hd, hp, FORMAT_AUTO, FORMAT_DER,
          FORMAT_PEM, FORMAT_SMIME, consulted, readValues, lua_return_one, PUSH_OBJECT]
      | none =>
        rcases hs : tk.SMIME_read_PKCS7 (tk.BIO_reset (tk.PEM_read_bio_PKCS7
            (tk.BIO_reset (tk.d2i_PKCS7_bio bio).2)).2) with ⟨⟨p7, ctx⟩, b⟩
        cases p7 <;> cases ctx <;>
          simp [decodersOf, firstDecoded, Decoder.run, hd, hp, hs, FORMAT_AUTO, FORMAT_DER,
            FORMAT_PEM, FORMAT_SMIME, consulted, readValues, lua_return_one, lua_return_two,
            PUSH_OBJECT]
  · have hi : format.indexOf "der" = 1 := by decide
    rw [hi] at hidx
    simp only [openssl_pkcs7_read, hbio, hidx]
    cases hd : (tk.d2i_PKCS7_bio bio).1 <;>
      simp [decodersOf, firstDecoded, Decoder.run, hd, FORMAT_AUTO, FORMAT_DER, FORMAT_PEM,
        FORMAT_SMIME, consulted, readValues, lua_return_one, PUSH_OBJECT]
  · have hi : format.indexOf "pem" = 2 := by decide
    rw [hi] at hidx
    simp only [openssl_pkcs7_read, hbio, hidx]
    cases hp : (tk.PEM_read_bio_PKCS7 bio).1 <;>
      simp [decodersOf, firstDecoded, Decoder.run, hp, FORMAT_AUTO, FORMAT_DER, FORMAT_PEM,
        FORMAT_SMIME, consulted, readValues, lua_return_one, PUSH_OBJECT]
  · have hi : format.indexOf "smime" = 3 := by decide
    rw [hi] at hidx
    simp only [openssl_pkcs7_read, hbio, hidx]
    rcases hs : tk.SMIME_read_PKCS7 bio with ⟨⟨p7, ctx⟩, b⟩
    cases p7 <;> cases ctx <;>
      simp [decodersOf, firstDecoded, Decoder.run, hs, FORMAT_AUTO, FORMAT_DER,
        FORMAT_PEM, FORMAT_SMIME, consulted, readValues, lua_return_one, lua_return_two,
        PUSH_OBJECT]

theorem lua_return_length_le (stack : List LuaValue) (n : Nat) :
    (lua_return stack n).length ≤ n := by
  unfold lua_return
  rw [List.length_drop]
  omega

/-- Whatever its arguments, `verify` never hands back more than one value. -/
theorem verify_returns_at_most_one (tk : Toolkit) (args vals : List LuaValue)
    (h : (openssl_pkcs7_verify tk args).outcome = .returned vals) : vals.length ≤ 1 := by
  unfold openssl_pkcs7_verify at h
  repeat' split at h
  all_goals first
    | (cases h; done)
    | (injection h with h; subst h; exact lua_return_length_le _ 1)

theorem find_filter_ne {α : Type} (t : List (String × α)) (k k' : String) (hk : k ≠ k') :
    List.find? (fun e => e.1 == k') (t.filter (fun e => e.1 != k))
      = List.find? (fun e => e.1 == k') t := by
  induction t with
  | nil => rfl
  | cons e t ih =>
    by_cases h : e.1 = k
    · have h' : (e.1 == k') = false := by
        simp only [beq_eq_false_iff_ne, ne_eq]
        intro h2
        exact hk (h.symm.trans h2)
      have hf : (e.1 != k) = false := by simp [h]
      simp only [List.filter_cons, List.find?_cons, hf, h']
      simpa using ih
    · have hf : (e.1 != k) = true := by simp [h]
      by_cases h2 : (e.1 == k') = true
      · simp only [List.filter_cons, List.find?_cons, hf, h2, if_true]
      · have h3 : (e.1 == k') = false := by simpa using h2
        simp only [List.filter_cons, List.find?_cons, hf, h3, if_true]
        exact ih

theorem find_filter_same {α : Type} (t : List (String × α)) (k : String) :
    List.find? (fun e => e.1 == k) (t.filter (fun e => e.1 != k)) = none := by
  rw [List.find?_eq_none]
  intro x hx
  have h := (List.mem_filter.mp hx).2
  simpa using h

theorem ModuleTable.get_set_same (t : ModuleTable) (k : String) (v : ModuleValue) :
    (t.set k v).get k = some v := by
  unfold ModuleTable.set ModuleTable.get
  rw [List.find?_append, find_filter_same]
  simp

theorem ModuleTable.get_set_ne (t : ModuleTable) (k k' : String) (v : ModuleValue)
    (hk : k ≠ k') : (t.set k v).get k' = t.get k' := by
  unfold ModuleTable.set ModuleTable.get
  rw [List.find?_append, find_filter_ne t k k' hk]
  have h : List.find? (fun e : String × ModuleValue => e.1 == k') [(k, v)] = none := by
    simp [hk]
  rw [h]
  simp

theorem hasKey_setfield_of_ne (t : Fields) (k k' : String) (v : LuaValue) (hk : k' ≠ k) :
    hasKey (lua_setfield t k v) k' ↔ hasKey t k' := by
  have hf : hasKey (t.filter (fun e => e.1 != k)) k' ↔ hasKey t k' := by
    simp only [hasKey, List.mem_map, List.mem_filter]
    constructor
    · rintro ⟨e, ⟨he, _⟩, rfl⟩
      exact ⟨e, he, rfl⟩
    · rintro ⟨e, he, rfl⟩
      exact ⟨e, ⟨he, by simpa using hk⟩, rfl⟩
  have ha : ∀ w : LuaValue,
      hasKey (t.filter (fun e => e.1 != k) ++ [(k, w)]) k' ↔ hasKey t k' := by
    intro w
    rw [← hf]
    simp only [hasKey, List.map_append, List.mem_append, List.map_cons, List.map_nil,
      List.mem_singleton]
    constructor
    · rintro (h | h)
      · exact h
      · exact absurd h hk
    · exact Or.inl
  cases v with
  | nil => exact hf
  | boolean b => exact ha _
  | number n => exact ha _
  | string s => exact ha _
  | userdata c o => exact ha _
  | table f => exact ha _

theorem hasKey_setfield_userdata (t : Fields) (k cls : String) (o : Obj) :
    hasKey (lua_setfield t k (.userdata cls o)) k := by
  simp [hasKey, lua_setfield]

theorem hasKey_type_only (v : LuaValue) (k : String) (hk : k ≠ "type") :
    ¬ hasKey (lua_setfield [] "type" v) k := by
  rw [hasKey_setfield_of_ne _ _ _ _ hk]
  simp [hasKey]

/-- The switch of `parse` fills `certs` and `crls` with the embedded lists and
stores neither key itself; it stops exactly on a NULL dereference. -/
theorem parse_switch_spec (p7 : PKCS7) (t : Fields)
    (hc : ¬ hasKey t "certs") (hr : ¬ hasKey t "crls") :
    (parse_switch p7 (OBJ_obj2nid p7) t = none ∧ parseNullDeref p7 = true) ∨
      ∃ st, parse_switch p7 (OBJ_obj2nid p7) t = some st ∧ parseNullDeref p7 = false ∧
        st.certs = embeddedCerts p7 ∧ st.crls = embeddedCrls p7 ∧
        ¬ hasKey st.t "certs" ∧ ¬ hasKey st.t "crls" := by
  cases p7 with
  | data d =>
    cases d with
    | none => left; exact ⟨rfl, rfl⟩
    | some s =>
      right
      refine ⟨_, rfl, rfl, rfl, rfl, ?_, ?_⟩
      · show ¬ hasKey (lua_setfield (lua_setfield t "type" (.string "data")) "data" (.string s))
          "certs"
        rw [hasKey_setfield_of_ne _ _ _ _ (by decide), hasKey_setfield_of_ne _ _ _ _ (by decide)]
        exact hc
      · show ¬ hasKey (lua_setfield (lua_setfield t "type" (.string "data")) "data" (.string s))
          "crls"
        rw [hasKey_setfield_of_ne _ _ _ _ (by decide), hasKey_setfield_of_ne _ _ _ _ (by decide)]
        exact hr
  | sign d =>
    cases d with
    | none => left; exact ⟨rfl, rfl⟩
    | some sign =>
      cases sign with
      | mk algs cert crl infos contents =>
        have hkeys : ∀ (k : String) (v1 v2 v3 v4 : LuaValue), ¬ hasKey t k →
            k ≠ "md_algs" → k ≠ "signer_info" → k ≠ "detached" → k ≠ "contents" →
            ¬ hasKey (lua_setfield (lua_setfield (lua_setfield (lua_setfield t
              "md_algs" v1) "signer_info" v2) "detached" v3) "contents" v4) k := by
          intro k v1 v2 v3 v4 hk h1 h2 h3 h4
          rw [hasKey_setfield_of_ne _ _ _ _ h4, hasKey_setfield_of_ne _ _ _ _ h3,
            hasKey_setfield_of_ne _ _ _ _ h2, hasKey_setfield_of_ne _ _ _ _ h1]
          exact hk
        cases hdet : contents.d_ptr_null with
        | true =>
          right
          refine ⟨⟨(lua_setfield (lua_setfield (lua_setfield (lua_setfield t "md_algs"
              (PUSH_OBJECT (.sk_x509_algor algs) "openssl.stack_of_x509_algor")) "signer_info"
              (PUSH_OBJECT (.sk_signer_info infos) "openssl.stack_of_pkcs7_signer_info"))
              "detached" (.boolean true)) "contents" (PUSH_OBJECT (.pkcs7 contents) "openssl.pkcs7")), cert, crl⟩, ?_, ?_, rfl, rfl, ?_, ?_⟩
          · simp [parse_switch, OBJ_obj2nid, PKCS7.d_sign, PKCS7_is_detached,
              PKCS7_SIGNED.contents, hdet, PKCS7_SIGNED.md_algs, PKCS7_SIGNED.signer_info,
              PKCS7_SIGNED.cert, PKCS7_SIGNED.crl]
          · simp [parseNullDeref, PKCS7_SIGNED.contents, hdet]
          · dsimp only
            exact hkeys _ _ _ _ _ hc (by decide) (by decide) (by decide) (by decide)
          · dsimp only
            exact hkeys _ _ _ _ _ hr (by decide) (by decide) (by decide) (by decide)
        | false =>
          cases hos : PKCS7_get_octet_string contents with
          | none =>
            left
            constructor
            · simp [parse_switch, OBJ_obj2nid, PKCS7.d_sign, PKCS7_is_detached,
                PKCS7_SIGNED.contents, hdet, hos]
            · simp [parseNullDeref, PKCS7_SIGNED.contents, hdet, hos]
          | some os =>
            right
            refine ⟨⟨lua_setfield (lua_setfield (lua_setfield (lua_setfield (lua_setfield t "md_algs"
              (PUSH_OBJECT (.sk_x509_algor algs) "openssl.stack_of_x509_algor")) "signer_info"
              (PUSH_OBJECT (.sk_signer_info infos) "openssl.stack_of_pkcs7_signer_info"))
              "detached" (.boolean false)) "contents" (PUSH_OBJECT (.pkcs7 contents) "openssl.pkcs7"))
              "content" (.string os), cert, crl⟩, ?_, ?_, rfl, rfl, ?_, ?_⟩
            · simp [parse_switch, OBJ_obj2nid, PKCS7.d_sign, PKCS7_is_detached,
                PKCS7_SIGNED.contents, hdet, hos, PKCS7_SIGNED.md_algs,
                PKCS7_SIGNED.signer_info, PKCS7_SIGNED.cert, PKCS7_SIGNED.crl]
            · simp [parseNullDeref, PKCS7_SIGNED.contents, hdet, hos]
            · dsimp only
              rw [hasKey_setfield_of_ne _ _ _ _ (by decide)]
              exact hkeys _ _ _ _ _ hc (by decide) (by decide) (by decide) (by decide)
            · dsimp only
              rw [hasKey_setfield_of_ne _ _ _ _ (by decide)]
              exact hkeys _ _ _ _ _ hr (by decide) (by decide) (by decide) (by decide)
  | enveloped d => right; exact ⟨_, rfl, rfl, rfl, rfl, hc, hr⟩
  | signed_and_enveloped d =>
    cases d with
    | none => left; exact ⟨rfl, rfl⟩
    | some se => right; exact ⟨_, rfl, rfl, rfl, rfl, hc, hr⟩
  | digest d =>
    cases d with
    | none => left; exact ⟨rfl, rfl⟩
    | some dg =>
      right
      cases dg with
      | mk c dig =>
        cases dig with
        | none =>
          refine ⟨_, rfl, rfl, rfl, rfl, ?_, ?_⟩
          · show ¬ hasKey (lua_setfield t "type" (.string "digest")) "certs"
            rw [hasKey_setfield_of_ne _ _ _ _ (by decide)]
            exact hc
          · show ¬ hasKey (lua_setfield t "type" (.string "digest")) "crls"
            rw [hasKey_setfield_of_ne _ _ _ _ (by decide)]
            exact hr
        | some bytes =>
          refine ⟨_, rfl, rfl, rfl, rfl, ?_, ?_⟩
          · show ¬ hasKey (lua_setfield (lua_setfield t "type" (.string "digest")) "digest"
              (.string bytes)) "certs"
            rw [hasKey_setfield_of_ne _ _ _ _ (by decide),
              hasKey_setfield_of_ne _ _ _ _ (by decide)]
            exact hc
          · show ¬ hasKey (lua_setfield (lua_setfield t "type" (.string "digest")) "digest"
              (.string bytes)) "crls"
            rw [hasKey_setfield_of_ne _ _ _ _ (by decide),
              hasKey_setfield_of_ne _ _ _ _ (by decide)]
            exact hr
  | encrypted d => right; exact ⟨_, rfl, rfl, rfl, rfl, hc, hr⟩
  | other nid h d =>
    right
    have hn : nid < 21 ∨ 26 < nid := by
      simp only [isPkcs7Nid, NID_pkcs7_data, NID_pkcs7_encrypted, Bool.and_eq_false_imp,
        decide_eq_true_eq, decide_eq_false_iff_not] at h
      omega
    have h21 : nid ≠ 21 := by omega
    have h22 : nid ≠ 22 := by omega
    have h23 : nid ≠ 23 := by omega
    have h24 : nid ≠ 24 := by omega
    have h25 : nid ≠ 25 := by omega
    refine ⟨⟨t, none, none⟩, ?_, rfl, rfl, rfl, hc, hr⟩
    simp [parse_switch, OBJ_obj2nid, NID_pkcs7_data, NID_pkcs7_signed, NID_pkcs7_enveloped,
      NID_pkcs7_signedAndEnveloped, NID_pkcs7_digest, h21, h22, h23, h24, h25]

/-! ## The claims -/

/-- C2: for every input stream and every format among auto, der, pem and
smime, `read` consults exactly the decoders the format names (DER, then PEM,
then S/MIME for auto; the one named otherwise), stops at the first that
succeeds, hands back that decoder's container (followed, for S/MIME, by the
recovered content), and hands back the single value nil when none succeeds. -/
theorem read_first_decoder (tk : Toolkit) (args : List LuaValue) (bio : BIO)
    (fmt : String) (hbio : load_bio_object args 1 = .ok bio) (hfmt : fmt ∈ format)
    (harg : lua_arg args 2 = some (.string fmt) ∨
      (fmt = "auto" ∧ lua_isnoneornil args 2 = true)) :
    consulted (openssl_pkcs7_read tk args).trace = (firstDecoded tk (decodersOf fmt) bio).2 ∧
    (openssl_pkcs7_read tk args).outcome =
      .returned (readValues (firstDecoded tk (decodersOf fmt) bio).1) :=
  read_refines_firstDecoded tk args bio fmt hbio hfmt harg

/-- C2 at a PEM input under auto: DER is consulted and fails, PEM is consulted
and succeeds, S/MIME is not consulted, and the PEM container comes back. -/
theorem read_first_decoder_witness :
    consulted (openssl_pkcs7_read dataToolkit [.string "Pabc", .string "auto"]).trace
        = [.der, .pem] ∧
      (openssl_pkcs7_read dataToolkit [.string "Pabc", .string "auto"]).outcome
        = .returned [.userdata "openssl.pkcs7" (.pkcs7 (.data (some "abc")))] := by
  have h := read_first_decoder dataToolkit [.string "Pabc", .string "auto"]
    (BIO_new_mem_buf "Pabc") "auto" rfl (by decide) (Or.inl rfl)
  exact h

/-- C3: DER round trip through the binding. If the DER decoder of the toolkit
inverts its DER encoder, then for every container `c` that `export(c, false)`
turns into bytes `b`, both `read(b, "der")` and `read(b, "auto")` hand back
exactly one value, a container equal to `c`. -/
theorem der_round_trip (tk : Toolkit) (c : PKCS7) (b : Bytes)
    (hinv : ∀ (c : PKCS7) (b : Bytes), tk.i2d_PKCS7_bio c = (true, b) →
      (tk.d2i_PKCS7_bio (BIO_new_mem_buf b)).1 = some c)
    (hexp : (openssl_pkcs7_export tk
        [.userdata "openssl.pkcs7" (.pkcs7 c), .boolean false]).outcome
      = .returned [.string b]) :
    (openssl_pkcs7_read tk [.string b, .string "der"]).outcome
        = .returned [.userdata "openssl.pkcs7" (.pkcs7 c)] ∧
      (openssl_pkcs7_read tk [.string b, .string "auto"]).outcome
        = .returned [.userdata "openssl.pkcs7" (.pkcs7 c)] := by
  have hi : tk.i2d_PKCS7_bio c = (true, b) := by
    rcases hr : tk.i2d_PKCS7_bio c with ⟨ok, bytes⟩
    have hret : ∀ v : LuaValue, lua_return
        [LuaValue.userdata "openssl.pkcs7" (.pkcs7 c), .boolean false, v] 1 = [v] :=
      fun v => lua_return_pushed [LuaValue.userdata "openssl.pkcs7" (.pkcs7 c), .boolean false] [v]
    cases ok <;>
      simp [openssl_pkcs7_export, CHECK_OBJECT, lua_arg, lua_gettop, lua_toboolean,
        Obj.toPKCS7, hr, hret] at hexp
    rw [hexp]
  have hd := hinv c b hi
  constructor
  · have h := (read_refines_firstDecoded tk [.string b, .string "der"] (BIO_new_mem_buf b)
      "der" rfl (by decide) (Or.inl rfl)).2
    rw [h]
    simp [decodersOf, firstDecoded, Decoder.run, hd, readValues]
  · have h := (read_refines_firstDecoded tk [.string b, .string "auto"] (BIO_new_mem_buf b)
      "auto" rfl (by decide) (Or.inl rfl)).2
    rw [h]
    simp [decodersOf, firstDecoded, Decoder.run, hd, readValues]

theorem dataToolkit_der_inverse (c : PKCS7) (b : Bytes)
    (h : dataToolkit.i2d_PKCS7_bio c = (true, b)) :
    (dataToolkit.d2i_PKCS7_bio (BIO_new_mem_buf b)).1 = some c := by
  cases c with
  | data d =>
    cases d with
    | none => simp [dataToolkit, failingToolkit] at h
    | some s =>
      simp [dataToolkit, failingToolkit] at h
      subst h
      simp [dataToolkit, failingToolkit, BIO_new_mem_buf]
  | _ => simp [dataToolkit, failingToolkit] at h

/-- C3 at the data container with payload `abc`, whose DER export is `Dabc`. -/
theorem der_round_trip_witness :
    (openssl_pkcs7_export dataToolkit
        [.userdata "openssl.pkcs7" (.pkcs7 (.data (some "abc"))), .boolean false]).outcome
      = .returned [.string "Dabc"] ∧
    (openssl_pkcs7_read dataToolkit [.string "Dabc", .string "der"]).outcome
        = .returned [.userdata "openssl.pkcs7" (.pkcs7 (.data (some "abc")))] ∧
      (openssl_pkcs7_read dataToolkit [.string "Dabc", .string "auto"]).outcome
        = .returned [.userdata "openssl.pkcs7" (.pkcs7 (.data (some "abc")))] :=
  ⟨rfl, der_round_trip dataToolkit (.data (some "abc")) "Dabc" dataToolkit_der_inverse rfl⟩

/-- C6: for every well-typed call of `decrypt` (a container, a recipient
certificate, and a private key that is absent, nil or a key object) the
operation does not raise and hands back exactly one value: the bytes the
decrypt primitive wrote when it succeeds, nil when it fails. -/
theorem decrypt_one_value (tk : Toolkit) (args : List LuaValue) (p7 : PKCS7)
    (cert : X509) (key : Option EVP_PKEY)
    (h1 : lua_arg args 1 = some (.userdata "openssl.pkcs7" (.pkcs7 p7)))
    (h2 : lua_arg args 2 = some (.userdata "openssl.x509" (.x509 cert)))
    (h3 : (key = none ∧ lua_isnoneornil args 3 = true) ∨
      (∃ k, key = some k ∧ lua_arg args 3 = some (.userdata "openssl.evp_pkey" (.evp_pkey k)))) :
    (openssl_pkcs7_decrypt tk args).outcome =
      .returned [if (tk.PKCS7_decrypt p7 key cert PKCS7_DETACHED).1
        then .string (tk.PKCS7_decrypt p7 key cert PKCS7_DETACHED).2 else .nil] := by
  have hkey : optKey args 3 = .ok key := by
    rcases h3 with ⟨hk, hn⟩ | ⟨k, hk, ha⟩
    · simp [optKey, hn, hk]
    · simp [optKey, lua_isnoneornil, CHECK_OBJECT, ha, hk, Obj.toPKEY]
  simp only [openssl_pkcs7_decrypt, CHECK_OBJECT, h1, h2, hkey, Obj.toPKCS7, Obj.toX509]
  cases hr : (tk.PKCS7_decrypt p7 key cert PKCS7_DETACHED).1 <;> simp [hr, lua_return_one]

/-- C6 at three calls: a matching key recovers the bytes, an absent key and
an unrelated key both give the single value nil. -/
theorem decrypt_one_value_witness :
    (openssl_pkcs7_decrypt dataToolkit
        [.userdata "openssl.pkcs7" (.pkcs7 (.enveloped none)),
         .userdata "openssl.x509" (.x509 5),
         .userdata "openssl.evp_pkey" (.evp_pkey 1)]).outcome = .returned [.string "plain"] ∧
      (openssl_pkcs7_decrypt dataToolkit
        [.userdata "openssl.pkcs7" (.pkcs7 (.enveloped none)),
         .userdata "openssl.x509" (.x509 5)]).outcome = .returned [.nil] ∧
      (openssl_pkcs7_decrypt dataToolkit
        [.userdata "openssl.pkcs7" (.pkcs7 (.enveloped none)),
         .userdata "openssl.x509" (.x509 5),
         .userdata "openssl.evp_pkey" (.evp_pkey 2)]).outcome = .returned [.nil] :=
  ⟨decrypt_one_value dataToolkit _ (.enveloped none) 5 (some 1) rfl rfl
      (Or.inr ⟨1, rfl, rfl⟩),
    decrypt_one_value dataToolkit _ (.enveloped none) 5 none rfl rfl (Or.inl ⟨rfl, rfl⟩),
    decrypt_one_value dataToolkit _ (.enveloped none) 5 (some 2) rfl rfl
      (Or.inr ⟨2, rfl, rfl⟩)⟩

/-- C7 as stated fails: with an encryption primitive that fails, `encrypt`
does not raise; it hands back the single value nil. -/
theorem encrypt_failure_is_nil :
    failingToolkit.PKCS7_encrypt (some [7]) (BIO_new_mem_buf "m") 0 0 = none ∧
      (openssl_pkcs7_encrypt failingToolkit
        [.string "m", .userdata "openssl.stack_of_x509" (.sk_x509 (some [7]))]).outcome
        = .returned [.nil] ∧
      ∀ msg, (openssl_pkcs7_encrypt failingToolkit
        [.string "m", .userdata "openssl.stack_of_x509" (.sk_x509 (some [7]))]).outcome
        ≠ .raised msg := by
  refine ⟨rfl, rfl, ?_⟩
  intro msg h
  cases h

/-- C7, amended: for every well-typed call of `encrypt`, the operation raises
when the cipher cannot be resolved; with a resolved cipher it hands back
exactly one value, nil when the encryption primitive fails and the container
of the primitive otherwise. -/
theorem encrypt_outcomes (tk : Toolkit) (args : List LuaValue) (infile : BIO)
    (recipcerts : Option (List X509)) (flags : Nat) (cipher : Option EVP_CIPHER)
    (h1 : load_bio_object args 1 = .ok infile)
    (h2 : CHECK_OBJECT args 2 Obj.toStackX509 "openssl.stack_of_x509" = .ok recipcerts)
    (h3 : optFlags args 2 3 toLong = .ok flags)
    (h4 : encryptCipher tk args = .ok cipher) :
    (openssl_pkcs7_encrypt tk args).outcome =
      match cipher with
      | none => .raised "Failed to get cipher"
      | some c =>
        match tk.PKCS7_encrypt recipcerts infile c flags with
        | none => .returned [.nil]
        | some p7 => .returned [.userdata "openssl.pkcs7" (.pkcs7 p7)] := by
  simp only [openssl_pkcs7_encrypt, h1, h2, h3, h4]
  cases cipher with
  | none => rfl
  | some c =>
    cases hp : tk.PKCS7_encrypt recipcerts infile c flags <;>
      simp [hp, lua_return_one, PUSH_OBJECT]

/-- C7, amended, at three calls: an unresolvable default cipher raises, a
failing primitive gives nil, a succeeding one gives its container. -/
theorem encrypt_outcomes_witness :
    (openssl_pkcs7_encrypt { failingToolkit with EVP_get_cipherbyname := fun _ => none }
        [.string "m", .userdata "openssl.stack_of_x509" (.sk_x509 (some [7]))]).outcome
        = .raised "Failed to get cipher" ∧
      (openssl_pkcs7_encrypt failingToolkit
        [.string "m", .userdata "openssl.stack_of_x509" (.sk_x509 (some [7]))]).outcome
        = .returned [.nil] ∧
      (openssl_pkcs7_encrypt acceptingToolkit
        [.string "m", .userdata "openssl.stack_of_x509" (.sk_x509 (some [7]))]).outcome
        = .returned [.userdata "openssl.pkcs7" (.pkcs7 (.enveloped (some ⟨[1], "m"⟩)))] :=
  ⟨encrypt_outcomes { failingToolkit with EVP_get_cipherbyname := fun _ => none }
      [.string "m", .userdata "openssl.stack_of_x509" (.sk_x509 (some [7]))]
      (BIO_new_mem_buf "m") (some [7]) 0 none rfl rfl rfl rfl,
    encrypt_outcomes failingToolkit
      [.string "m", .userdata "openssl.stack_of_x509" (.sk_x509 (some [7]))]
      (BIO_new_mem_buf "m") (some [7]) 0 (some 0) rfl rfl rfl rfl,
    encrypt_outcomes acceptingToolkit
      [.string "m", .userdata "openssl.stack_of_x509" (.sk_x509 (some [7]))]
      (BIO_new_mem_buf "m") (some [7]) 0 (some 0) rfl rfl rfl rfl⟩

/-- C1 fails on the code: when the verification primitive succeeds, `verify`
pushes true and the signers but ends with `return 1`, so the caller is handed
the signers alone, not the pair (true, signers). -/
theorem verify_success_hands_back_signers_alone :
    acceptingToolkit.PKCS7_verify attachedContainer none 0 none none 0 = true ∧
      (openssl_pkcs7_verify acceptingToolkit
        [.userdata "openssl.pkcs7" (.pkcs7 attachedContainer)]).outcome
        = .returned [.userdata "openssl.sk_x509" (.sk_x509 (some [7]))] ∧
      (openssl_pkcs7_verify acceptingToolkit
        [.userdata "openssl.pkcs7" (.pkcs7 attachedContainer)]).outcome
        ≠ .returned [.boolean true, .userdata "openssl.sk_x509" (.sk_x509 (some [7]))] := by
  refine ⟨rfl, rfl, ?_⟩
  intro h
  have h2 : (openssl_pkcs7_verify acceptingToolkit
      [.userdata "openssl.pkcs7" (.pkcs7 attachedContainer)]).outcome
      = .returned [.userdata "openssl.sk_x509" (.sk_x509 (some [7]))] := rfl
  rw [h2] at h
  simp at h

/-- C4 fails on the code: in the module table registered from `R` the name
"sign" resolves to the verification operation (the second entry named "sign"
replaces the signing operation), and registration stores nothing under
"verify"; "read", "encrypt" and "decrypt" resolve to their own operations. -/
theorem module_sign_resolves_to_verify (t0 : ModuleTable) (version : String) :
    (luaopen_pkcs7 t0 version).get "sign" = some (.cfunction .openssl_pkcs7_verify) ∧
      (luaopen_pkcs7 t0 version).get "verify" = t0.get "verify" ∧
      (luaopen_pkcs7 [] version).get "verify" = none ∧
      (luaopen_pkcs7 t0 version).get "read" = some (.cfunction .openssl_pkcs7_read) ∧
      (luaopen_pkcs7 t0 version).get "encrypt" = some (.cfunction .openssl_pkcs7_encrypt) ∧
      (luaopen_pkcs7 t0 version).get "decrypt" = some (.cfunction .openssl_pkcs7_decrypt) := by
  have hv : (luaopen_pkcs7 t0 version).get "verify" = t0.get "verify" := by
    simp only [luaopen_pkcs7, luaL_register, R, List.foldl]
    repeat rw [ModuleTable.get_set_ne _ _ _ _ (by decide)]
  refine ⟨?_, hv, ?_, ?_, ?_, ?_⟩
  · simp only [luaopen_pkcs7, luaL_register, R, List.foldl]
    repeat rw [ModuleTable.get_set_ne _ _ "sign" _ (by decide)]
    rw [ModuleTable.get_set_same]
  · rfl
  · simp only [luaopen_pkcs7, luaL_register, R, List.foldl]
    repeat rw [ModuleTable.get_set_ne _ _ "read" _ (by decide)]
    rw [ModuleTable.get_set_same]
  · simp only [luaopen_pkcs7, luaL_register, R, List.foldl]
    repeat rw [ModuleTable.get_set_ne _ _ "encrypt" _ (by decide)]
    rw [ModuleTable.get_set_same]
  · simp only [luaopen_pkcs7, luaL_register, R, List.foldl]
    repeat rw [ModuleTable.get_set_ne _ _ "decrypt" _ (by decide)]
    rw [ModuleTable.get_set_same]

/-- Every returning path of `read` releases the input stream once. -/
theorem read_return_releases_once (tk : Toolkit) (args vals : List LuaValue)
    (h : (openssl_pkcs7_read tk args).outcome = .returned vals) :
    acquisitions (openssl_pkcs7_read tk args).trace = 1 ∧
      releases (openssl_pkcs7_read tk args).trace = 1 := by
  unfold openssl_pkcs7_read at h ⊢
  split at h
  · cases h
  · split at h
    · cases h
    · simp only [releases, acquisitions]
      repeat' split
      all_goals simp [List.count_cons, List.count_append]

/-- No path of `encrypt` releases the input stream. -/
theorem encrypt_never_releases (tk : Toolkit) (args : List LuaValue) :
    releases (openssl_pkcs7_encrypt tk args).trace = 0 := by
  unfold openssl_pkcs7_encrypt
  repeat' split
  all_goals rfl

/-- No raising path of `sign` releases the input stream. -/
theorem sign_raise_never_releases (tk : Toolkit) (args : List LuaValue) (msg : String)
    (h : (openssl_pkcs7_sign tk args).outcome = .raised msg) :
    releases (openssl_pkcs7_sign tk args).trace = 0 := by
  unfold openssl_pkcs7_sign at h ⊢
  repeat' split at h
  all_goals first
    | (cases h; done)
    | (simp only [*]; rfl)

/-- Every returning path of `sign` releases the input stream once. -/
theorem sign_return_releases_once (tk : Toolkit) (args vals : List LuaValue)
    (h : (openssl_pkcs7_sign tk args).outcome = .returned vals) :
    acquisitions (openssl_pkcs7_sign tk args).trace = 1 ∧
      releases (openssl_pkcs7_sign tk args).trace = 1 := by
  unfold openssl_pkcs7_sign at h ⊢
  repeat' split at h
  all_goals first
    | (cases h; done)
    | (simp only [*]; exact ⟨rfl, rfl⟩)

/-- C9 fails on the code: the input stream acquired at call entry is not
released when the signing primitive fails (`sign` raises before `BIO_free`),
is never released by `encrypt` (which only rewinds it), whether its primitive
fails or succeeds, and is not released by `read` when the format name is
rejected; `sign` and `read` release it once on their successful paths. -/
theorem input_stream_left_unreleased :
    ((openssl_pkcs7_sign failingToolkit signArgs).outcome
        = .raised "error creating PKCS7 structure!" ∧
      acquisitions (openssl_pkcs7_sign failingToolkit signArgs).trace = 1 ∧
      releases (openssl_pkcs7_sign failingToolkit signArgs).trace = 0) ∧
    ((openssl_pkcs7_encrypt acceptingToolkit encryptArgs).outcome
        = .returned [.userdata "openssl.pkcs7" (.pkcs7 (.enveloped (some ⟨[1], "m"⟩)))] ∧
      acquisitions (openssl_pkcs7_encrypt acceptingToolkit encryptArgs).trace = 1 ∧
      releases (openssl_pkcs7_encrypt acceptingToolkit encryptArgs).trace = 0) ∧
    ((openssl_pkcs7_encrypt failingToolkit encryptArgs).outcome = .returned [.nil] ∧
      acquisitions (openssl_pkcs7_encrypt failingToolkit encryptArgs).trace = 1 ∧
      releases (openssl_pkcs7_encrypt failingToolkit encryptArgs).trace = 0) ∧
    ((openssl_pkcs7_read failingToolkit [.string "m", .string "raw"]).outcome
        = .raised "invalid option" ∧
      acquisitions (openssl_pkcs7_read failingToolkit [.string "m", .string "raw"]).trace = 1 ∧
      releases (openssl_pkcs7_read failingToolkit [.string "m", .string "raw"]).trace = 0) ∧
    (acquisitions (openssl_pkcs7_sign acceptingToolkit signArgs).trace = 1 ∧
      releases (openssl_pkcs7_sign acceptingToolkit signArgs).trace = 1) ∧
    (acquisitions (openssl_pkcs7_read failingToolkit [.string "m"]).trace = 1 ∧
      releases (openssl_pkcs7_read failingToolkit [.string "m"]).trace = 1) := by
  refine ⟨⟨rfl, rfl, rfl⟩, ⟨rfl, rfl, rfl⟩, ⟨rfl, rfl, rfl⟩, ⟨rfl, rfl, rfl⟩, ⟨rfl, rfl⟩,
    ⟨rfl, rfl⟩⟩

/-- C10 fails on the code: for a signed container that is not detached and
whose inner content is nested signed data, or is of another type with a value
that is not an octet string, `PKCS7_get_octet_string` gives the NULL result
and `openssl_pkcs7_parse` dereferences it instead of producing "content". -/
theorem parse_attached_content_null :
    (PKCS7_is_detached nestedSignedContainer = false ∧
      PKCS7_get_octet_string attachedContainer = none ∧
      (openssl_pkcs7_parse failingToolkit
        [.userdata "openssl.pkcs7" (.pkcs7 nestedSignedContainer)]).outcome = .crashed) ∧
    (PKCS7_is_detached otherSequenceContainer = false ∧
      PKCS7_get_octet_string (.other 0 rfl (some ⟨16, "x"⟩)) = none ∧
      (openssl_pkcs7_parse failingToolkit
        [.userdata "openssl.pkcs7" (.pkcs7 otherSequenceContainer)]).outcome = .crashed) := by
  refine ⟨⟨rfl, rfl, rfl⟩, ⟨rfl, rfl, rfl⟩⟩

theorem clearDetached_bit (flags : Nat) : clearDetached flags &&& PKCS7_DETACHED = 0 := by
  unfold clearDetached PKCS7_DETACHED
  rw [Nat.land_assoc]
  have h : (18446744073709551615 - 64) &&& 64 = 0 := by decide
  rw [h]
  exact Nat.and_zero flags

/-- C5 as stated fails: the verification primitive accepts the detached
container when handed the signed content `m`, yet `verify`, called with `m`
in its stream argument, hands the primitive no content and gives false; and
whatever the arguments, no call of `verify` under this primitive hands back
anything but false. -/
theorem verify_detached_content_not_passed :
    detachedToolkit.PKCS7_verify detachedContainer (some []) 0 (some (BIO_new_mem_buf "m"))
        none 0 = true ∧
      (openssl_pkcs7_verify detachedToolkit detachedVerifyArgs).outcome
        = .returned [.boolean false] ∧
      (openssl_pkcs7_verify detachedToolkit detachedVerifyArgs).trace
        = [.PKCS7_verify none 0, .BIO_free .dataout] ∧
      ∀ args vals, (openssl_pkcs7_verify detachedToolkit args).outcome = .returned vals →
        vals = [.boolean false] := by
  refine ⟨rfl, rfl, rfl, ?_⟩
  intro args vals h
  unfold openssl_pkcs7_verify at h
  repeat' split at h
  all_goals first
    | (cases h; done)
    | (injection h with h
       subst h
       exact lua_return_one args (.boolean false))

/-- C5, amended: `verify` takes no detached content. In every call the
content argument of the verification primitive is absent and the detached
flag is cleared, so two toolkits whose verification primitives agree on
absent content give the same run of `verify`, whatever the caller supplies. -/
theorem verify_ignores_caller_content (tk tk' : Toolkit) (args : List LuaValue)
    (hsetup : tk'.setup_verify = tk.setup_verify)
    (hsigners : tk'.PKCS7_get0_signers = tk.PKCS7_get0_signers)
    (hnone : ∀ p7 others store out flags, flags &&& PKCS7_DETACHED = 0 →
      tk'.PKCS7_verify p7 others store none out flags
        = tk.PKCS7_verify p7 others store none out flags) :
    openssl_pkcs7_verify tk' args = openssl_pkcs7_verify tk args ∧
      ∀ indata flags, Event.PKCS7_verify indata flags ∈ (openssl_pkcs7_verify tk args).trace →
        indata = none ∧ flags &&& PKCS7_DETACHED = 0 := by
  constructor
  · simp only [openssl_pkcs7_verify, hsetup, hsigners,
      hnone _ _ _ _ _ (clearDetached_bit _)]
  · intro indata flags hmem
    unfold openssl_pkcs7_verify at hmem
    repeat' split at hmem
    all_goals simp at hmem
    all_goals
      obtain ⟨h1, h2⟩ := hmem
      subst h1
      subst h2
      exact ⟨rfl, clearDetached_bit _⟩

/-- C5, amended, at the failing toolkit and the one that accepts the content
`m`: they agree on absent content, so `verify` runs alike on both. -/
theorem verify_ignores_caller_content_witness :
    openssl_pkcs7_verify detachedToolkit detachedVerifyArgs
        = openssl_pkcs7_verify failingToolkit detachedVerifyArgs ∧
      ∀ indata flags,
        Event.PKCS7_verify indata flags
            ∈ (openssl_pkcs7_verify failingToolkit detachedVerifyArgs).trace →
          indata = none ∧ flags &&& PKCS7_DETACHED = 0 :=
  verify_ignores_caller_content failingToolkit detachedToolkit detachedVerifyArgs rfl rfl
    (fun _ _ _ _ _ _ => rfl)

/-- The record of a signed-and-enveloped container whose certificate list is
present but empty and whose revocation list is absent: "certs" is a key,
"crls" is not. -/
theorem parse_empty_list_example :
    (openssl_pkcs7_parse failingToolkit [.userdata "openssl.pkcs7"
        (.pkcs7 (.signed_and_enveloped (some ⟨[], some [], none, [], ""⟩)))]).outcome
      = .returned [.table
          [("certs", .userdata "openssl.stack_of_x509" (.sk_x509 (some [])))]] := rfl

/-- A call of `parse` either dereferences a NULL pointer and returns nothing,
or returns one record whose keys "certs" and "crls" follow the embedded lists. -/
theorem parse_record_or_null_deref (tk : Toolkit) (p7 : PKCS7) :
    ((openssl_pkcs7_parse tk [.userdata "openssl.pkcs7" (.pkcs7 p7)]).outcome = .crashed ∧
        parseNullDeref p7 = true) ∨
      ∃ t, (openssl_pkcs7_parse tk [.userdata "openssl.pkcs7" (.pkcs7 p7)]).outcome
          = .returned [.table t] ∧
        parseNullDeref p7 = false ∧
        (hasKey t "certs" ↔ (embeddedCerts p7).isSome) ∧
        (hasKey t "crls" ↔ (embeddedCrls p7).isSome) := by
  have hret : ∀ v : LuaValue,
      lua_return [LuaValue.userdata "openssl.pkcs7" (.pkcs7 p7), v] 1 = [v] :=
    fun v => lua_return_pushed [LuaValue.userdata "openssl.pkcs7" (.pkcs7 p7)] [v]
  have hc := hasKey_type_only (lua_pushstring (tk.OBJ_nid2ln (OBJ_obj2nid p7))) "certs"
    (by decide)
  have hr := hasKey_type_only (lua_pushstring (tk.OBJ_nid2ln (OBJ_obj2nid p7))) "crls"
    (by decide)
  rcases parse_switch_spec p7 _ hc hr with ⟨hnone, hnd⟩ | ⟨st, hst, hnd, hcs, hcr, hkc, hkr⟩
  · left
    refine ⟨?_, hnd⟩
    simp [openssl_pkcs7_parse, CHECK_OBJECT, lua_arg, Obj.toPKCS7, hnone]
  · right
    rw [← hcs, ← hcr]
    cases hcert : st.certs with
    | none =>
      cases hcrl : st.crls with
      | none =>
        refine ⟨st.t, ?_, hnd, ?_, ?_⟩
        · simp [openssl_pkcs7_parse, CHECK_OBJECT, lua_arg, Obj.toPKCS7, hst, hcert, hcrl, hret]
        · simpa using hkc
        · simpa using hkr
      | some crls =>
        refine ⟨lua_setfield st.t "crls"
          (PUSH_OBJECT (.sk_x509_crl (some crls)) "openssl.stack_of_crl"), ?_, hnd, ?_, ?_⟩
        · simp [openssl_pkcs7_parse, CHECK_OBJECT, lua_arg, Obj.toPKCS7, hst, hcert, hcrl, hret]
        · rw [hasKey_setfield_of_ne _ _ _ _ (by decide)]
          simpa using hkc
        · simpa using hasKey_setfield_userdata st.t "crls" _ _
    | some certs =>
      cases hcrl : st.crls with
      | none =>
        refine ⟨lua_setfield st.t "certs"
          (PUSH_OBJECT (.sk_x509 (some certs)) "openssl.stack_of_x509"), ?_, hnd, ?_, ?_⟩
        · simp [openssl_pkcs7_parse, CHECK_OBJECT, lua_arg, Obj.toPKCS7, hst, hcert, hcrl, hret]
        · simpa using hasKey_setfield_userdata st.t "certs" _ _
        · rw [hasKey_setfield_of_ne _ _ _ _ (by decide)]
          simpa using hkr
      | some crls =>
        refine ⟨lua_setfield (lua_setfield st.t "certs"
          (PUSH_OBJECT (.sk_x509 (some certs)) "openssl.stack_of_x509")) "crls"
          (PUSH_OBJECT (.sk_x509_crl (some crls)) "openssl.stack_of_crl"), ?_, hnd, ?_, ?_⟩
        · simp [openssl_pkcs7_parse, CHECK_OBJECT, lua_arg, Obj.toPKCS7, hst, hcert, hcrl, hret]
        · rw [hasKey_setfield_of_ne _ _ _ _ (by decide)]
          simpa using hasKey_setfield_userdata st.t "certs" _ _
        · simpa using hasKey_setfield_userdata _ "crls" _ _

theorem contentAbsent_d_ptr_null (p7 : PKCS7) (h : contentAbsent p7 = true) :
    p7.d_ptr_null = true := by
  cases p7 with
  | other nid hn d => cases d <;> simp_all [contentAbsent, PKCS7.d_ptr_null]
  | _ => rename_i d; cases d <;> simp_all [contentAbsent, PKCS7.d_ptr_null]

theorem holdsOctetString_get (p7 : PKCS7) (h : holdsOctetString p7 = true) :
    (PKCS7_get_octet_string p7).isSome = true := by
  cases p7 with
  | data d =>
    cases d with
    | none => simp [holdsOctetString] at h
    | some s => rfl
  | other nid hn d =>
    cases d with
    | none => simp [holdsOctetString] at h
    | some value =>
      have ht : value.type = V_ASN1_OCTET_STRING := by simpa [holdsOctetString] using h
      have hlt : nid < 21 ∨ 26 < nid := by
        simp only [isPkcs7Nid, NID_pkcs7_data, NID_pkcs7_encrypted, Bool.and_eq_false_imp,
          decide_eq_true_eq, decide_eq_false_iff_not] at hn
        omega
      have h21 : nid ≠ 21 := by omega
      have h22 : nid ≠ 22 := by omega
      have h23 : nid ≠ 23 := by omega
      have h24 : nid ≠ 24 := by omega
      have h25 : nid ≠ 25 := by omega
      have h26 : nid ≠ 26 := by omega
      simp [PKCS7_get_octet_string, PKCS7_type_is_data, PKCS7_type_is_other, OBJ_obj2nid,
        PKCS7.d_other, NID_pkcs7_data, NID_pkcs7_signed, NID_pkcs7_enveloped,
        NID_pkcs7_signedAndEnveloped, NID_pkcs7_digest, NID_pkcs7_encrypted, h21, h22, h23,
        h24, h25, h26, ht]
  | _ => simp [holdsOctetString] at h

/-- On a container of the shape `parseable` describes, `parse` dereferences
no NULL pointer. -/
theorem parseable_no_null_deref (p7 : PKCS7) (h : parseable p7 = true) :
    parseNullDeref p7 = false := by
  cases p7 with
  | data d => cases d <;> simp_all [parseable, parseNullDeref]
  | sign d =>
    cases d with
    | none => simp [parseable] at h
    | some sign =>
      cases sign with
      | mk algs cert crl infos contents =>
        simp only [parseable, Bool.or_eq_true] at h
        rcases h with h | h
        · simp [parseNullDeref, PKCS7_SIGNED.contents, contentAbsent_d_ptr_null contents h]
        · have hos := holdsOctetString_get contents h
          simp only [parseNullDeref, PKCS7_SIGNED.contents, Bool.and_eq_false_imp]
          intro _
          cases hg : PKCS7_get_octet_string contents with
          | none => rw [hg] at hos; cases hos
          | some os => rfl
  | enveloped d => cases d <;> rfl
  | signed_and_enveloped d => cases d <;> simp_all [parseable, parseNullDeref]
  | digest d => cases d <;> simp_all [parseable, parseNullDeref]
  | encrypted d => cases d <;> rfl
  | other nid hn d => cases d <;> rfl

theorem d_ptr_null_contentAbsent (p7 : PKCS7) (h : p7.d_ptr_null = true) :
    contentAbsent p7 = true := by
  cases p7 with
  | other nid hn d => cases d <;> simp_all [contentAbsent, PKCS7.d_ptr_null]
  | _ => rename_i d; cases d <;> simp_all [contentAbsent, PKCS7.d_ptr_null]

theorem get_holdsOctetString (p7 : PKCS7) (hp : p7.d_ptr_null = false)
    (h : (PKCS7_get_octet_string p7).isSome = true) : holdsOctetString p7 = true := by
  cases p7 with
  | data d =>
    cases d with
    | none => simp [PKCS7.d_ptr_null] at hp
    | some s => rfl
  | other nid hn d =>
    cases d with
    | none => simp [PKCS7.d_ptr_null] at hp
    | some value =>
      by_cases ht : value.type = V_ASN1_OCTET_STRING
      · simp [holdsOctetString, ht]
      · have hlt : nid < 21 ∨ 26 < nid := by
          simp only [isPkcs7Nid, NID_pkcs7_data, NID_pkcs7_encrypted, Bool.and_eq_false_imp,
            decide_eq_true_eq, decide_eq_false_iff_not] at hn
          omega
        have h21 : nid ≠ 21 := by omega
        have h22 : nid ≠ 22 := by omega
        have h23 : nid ≠ 23 := by omega
        have h24 : nid ≠ 24 := by omega
        have h25 : nid ≠ 25 := by omega
        have h26 : nid ≠ 26 := by omega
        simp [PKCS7_get_octet_string, PKCS7_type_is_data, PKCS7_type_is_other, OBJ_obj2nid,
          PKCS7.d_other, NID_pkcs7_data, NID_pkcs7_signed, NID_pkcs7_enveloped,
          NID_pkcs7_signedAndEnveloped, NID_pkcs7_digest, NID_pkcs7_encrypted, h21, h22, h23,
          h24, h25, h26, ht] at h
  | sign d => exact absurd h (by simp [PKCS7_get_octet_string, PKCS7_type_is_data,
      PKCS7_type_is_other, OBJ_obj2nid, NID_pkcs7_data, NID_pkcs7_signed])
  | enveloped d => exact absurd h (by simp [PKCS7_get_octet_string, PKCS7_type_is_data,
      PKCS7_type_is_other, OBJ_obj2nid, NID_pkcs7_data, NID_pkcs7_enveloped])
  | signed_and_enveloped d => exact absurd h (by simp [PKCS7_get_octet_string,
      PKCS7_type_is_data, PKCS7_type_is_other, OBJ_obj2nid, NID_pkcs7_data,
      NID_pkcs7_signedAndEnveloped])
  | digest d => exact absurd h (by simp [PKCS7_get_octet_string, PKCS7_type_is_data,
      PKCS7_type_is_other, OBJ_obj2nid, NID_pkcs7_data, NID_pkcs7_digest])
  | encrypted d => exact absurd h (by simp [PKCS7_get_octet_string, PKCS7_type_is_data,
      PKCS7_type_is_other, OBJ_obj2nid, NID_pkcs7_data, NID_pkcs7_encrypted])

/-- The shape `parseable` describes leaves out exactly the containers on which
`parse` dereferences a NULL pointer. -/
theorem no_null_deref_parseable (p7 : PKCS7) (h : parseNullDeref p7 = false) :
    parseable p7 = true := by
  cases p7 with
  | data d => cases d <;> simp_all [parseable, parseNullDeref]
  | sign d =>
    cases d with
    | none => simp [parseNullDeref] at h
    | some sign =>
      cases sign with
      | mk algs cert crl infos contents =>
        simp only [parseable, Bool.or_eq_true]
        cases hp : contents.d_ptr_null with
        | true => exact Or.inl (d_ptr_null_contentAbsent contents hp)
        | false =>
          right
          apply get_holdsOctetString contents hp
          cases hg : PKCS7_get_octet_string contents with
          | none => simp [parseNullDeref, PKCS7_SIGNED.contents, hp, hg] at h
          | some os => rfl
  | enveloped d => rfl
  | signed_and_enveloped d => cases d <;> simp_all [parseable, parseNullDeref]
  | digest d => cases d <;> simp_all [parseable, parseNullDeref]
  | encrypted d => rfl
  | other nid hn d => rfl

end Pkcs7
